import Mathlib

/-
Shallow embedding of src/src/child_weight.cpp from the repository
Children_model_calibrated_by_BMI_category_2006: the Child cohort data, the
per-sex parameter tables set by getParameters, the reference body-composition
lookup tables with linear interpolation, the energy-balance closure functions,
the two intake models, the ODE right-hand side dMass, and the fixed-step RK4
driver rk4.  Machine doubles are modelled as real numbers; an Rcpp
NumericVector over a cohort of n individuals is a function Fin n -> Real, and
the loops filling trajectory matrices column by column become iteration of a
step function.
-/

noncomputable section

/-- Error raised by the Rcpp matrix row accessor when the row index lies
outside the matrix. -/
inductive RcppError where
  | IndexOutOfRange

/-- Modelled from the spec: the Rcpp NumericMatrix row accessor
EIntake(timeval, underscore) called by Child::Intake is library code that is
not part of src/.  Per the spec, the row index derived from elapsed time is
checked against the bounds of the intake matrix before the matrix is
accessed, and an IndexOutOfRange error is reported to the caller whenever the
index falls outside the rows, so no out-of-bounds read occurs. -/
def rowAccessChecked {T n : ℕ} (M : Fin T → Fin n → ℝ) (idx : ℤ) :
    Except RcppError (Fin n → ℝ) :=
  if hb : 0 ≤ idx ∧ idx < (T : ℤ) then
    .ok (fun i => M ⟨idx.toNat, by omega⟩ i)
  else
    .error .IndexOutOfRange

/-- Cohort state of the model: the fields stored by the two constructors of
Child in child_weight.cpp.  The tabulated intake matrix EIntakeM has T rows;
the logistic fields hold the Richardson curve parameters of the second
constructor.  The flag generalized_logistic records which constructor was
used. -/
structure Child (n : ℕ) where
  age : Fin n → ℝ
  sex : Fin n → ℝ
  bmiCat : Fin n → ℝ
  FFM : Fin n → ℝ
  FM : Fin n → ℝ
  dt : ℝ
  check : Bool
  generalized_logistic : Bool
  T : ℕ
  EIntakeM : Fin T → Fin n → ℝ
  K_logistic : ℝ
  Q_logistic : ℝ
  A_logistic : ℝ
  B_logistic : ℝ
  nu_logistic : ℝ
  C_logistic : ℝ

namespace Child

variable {n : ℕ}

/-- getParameters: general constant rhoFM = 9.4*1000. -/
def rhoFM : ℝ := 9.4 * 1000

/-- getParameters: general constant deltamin = 10. -/
def deltamin : ℝ := 10.0

/-- getParameters: general constant P = 12. -/
def P : ℝ := 12.0

/-- getParameters: general constant h = 10. -/
def h : ℝ := 10.0

/-- getParameters: K = 800*(1-sex) + 700*sex. -/
def K (c : Child n) : Fin n → ℝ := fun i => 800 * (1 - c.sex i) + 700 * c.sex i

/-- getParameters: deltamax = 19*(1-sex) + 17*sex. -/
def deltamax (c : Child n) : Fin n → ℝ := fun i => 19 * (1 - c.sex i) + 17 * c.sex i

/-- getParameters: A = 3.2*(1-sex) + 2.3*sex. -/
def A (c : Child n) : Fin n → ℝ := fun i => 3.2 * (1 - c.sex i) + 2.3 * c.sex i

/-- getParameters: B = 9.6*(1-sex) + 8.4*sex. -/
def B (c : Child n) : Fin n → ℝ := fun i => 9.6 * (1 - c.sex i) + 8.4 * c.sex i

/-- getParameters: D = 10.1*(1-sex) + 1.1*sex. -/
def D (c : Child n) : Fin n → ℝ := fun i => 10.1 * (1 - c.sex i) + 1.1 * c.sex i

/-- getParameters: tA = 4.7*(1-sex) + 4.5*sex. -/
def tA (c : Child n) : Fin n → ℝ := fun i => 4.7 * (1 - c.sex i) + 4.5 * c.sex i

/-- getParameters: tB = 12.5*(1-sex) + 11.7*sex. -/
def tB (c : Child n) : Fin n → ℝ := fun i => 12.5 * (1 - c.sex i) + 11.7 * c.sex i

/-- getParameters: tD = 15.0*(1-sex) + 16.2*sex. -/
def tD (c : Child n) : Fin n → ℝ := fun i => 15.0 * (1 - c.sex i) + 16.2 * c.sex i

/-- getParameters: tauA = 2.5*(1-sex) + 1.0*sex. -/
def tauA (c : Child n) : Fin n → ℝ := fun i => 2.5 * (1 - c.sex i) + 1.0 * c.sex i

/-- getParameters: tauB = 1.0*(1-sex) + 0.9*sex. -/
def tauB (c : Child n) : Fin n → ℝ := fun i => 1.0 * (1 - c.sex i) + 0.9 * c.sex i

/-- getParameters: tauD = 1.5*(1-sex) + 0.7*sex. -/
def tauD (c : Child n) : Fin n → ℝ := fun i => 1.5 * (1 - c.sex i) + 0.7 * c.sex i

/-- getParameters: A_EB = 7.2*(1-sex) + 16.5*sex. -/
def A_EB (c : Child n) : Fin n → ℝ := fun i => 7.2 * (1 - c.sex i) + 16.5 * c.sex i

/-- getParameters: B_EB = 30*(1-sex) + 47.0*sex. -/
def B_EB (c : Child n) : Fin n → ℝ := fun i => 30 * (1 - c.sex i) + 47.0 * c.sex i

/-- getParameters: D_EB = 21*(1-sex) + 41.0*sex. -/
def D_EB (c : Child n) : Fin n → ℝ := fun i => 21 * (1 - c.sex i) + 41.0 * c.sex i

/-- getParameters: tA_EB = 5.6*(1-sex) + 4.8*sex. -/
def tA_EB (c : Child n) : Fin n → ℝ := fun i => 5.6 * (1 - c.sex i) + 4.8 * c.sex i

/-- getParameters: tB_EB = 9.8*(1-sex) + 9.1*sex. -/
def tB_EB (c : Child n) : Fin n → ℝ := fun i => 9.8 * (1 - c.sex i) + 9.1 * c.sex i

/-- getParameters: tD_EB = 15.0*(1-sex) + 13.5*sex. -/
def tD_EB (c : Child n) : Fin n → ℝ := fun i => 15.0 * (1 - c.sex i) + 13.5 * c.sex i

/-- getParameters: tauA_EB = 15*(1-sex) + 7.0*sex. -/
def tauA_EB (c : Child n) : Fin n → ℝ := fun i => 15 * (1 - c.sex i) + 7.0 * c.sex i

/-- getParameters: tauB_EB = 1.5*(1-sex) + 1.0*sex. -/
def tauB_EB (c : Child n) : Fin n → ℝ := fun i => 1.5 * (1 - c.sex i) + 1.0 * c.sex i

/-- getParameters: tauD_EB = 2.0*(1-sex) + 1.5*sex. -/
def tauD_EB (c : Child n) : Fin n → ℝ := fun i => 2.0 * (1 - c.sex i) + 1.5 * c.sex i

/-- Child::general_ode, the shared growth and energy-balance kernel:
A*exp(-(t-tA)/tauA) + B*exp(-0.5*((t-tB)/tauB)^2) + D*exp(-0.5*((t-tD)/tauD)^2),
evaluated elementwise. -/
def general_ode (t input_A input_B input_D input_tA input_tB input_tD
    input_tauA input_tauB input_tauD : Fin n → ℝ) : Fin n → ℝ :=
  fun i =>
    input_A i * Real.exp (-((t i - input_tA i) / input_tauA i))
      + input_B i * Real.exp (-0.5 * ((t i - input_tB i) / input_tauB i) ^ 2)
      + input_D i * Real.exp (-0.5 * ((t i - input_tD i) / input_tauD i) ^ 2)

/-- Child::Growth_dynamic. -/
def Growth_dynamic (c : Child n) (t : Fin n → ℝ) : Fin n → ℝ :=
  general_ode t c.A c.B c.D c.tA c.tB c.tD c.tauA c.tauB c.tauD

/-- Child::EB_impact. -/
def EB_impact (c : Child n) (t : Fin n → ℝ) : Fin n → ℝ :=
  general_ode t c.A_EB c.B_EB c.D_EB c.tA_EB c.tB_EB c.tD_EB c.tauA_EB c.tauB_EB c.tauD_EB

/-- Child::cRhoFFM: caloric density of fat-free mass, 4.3*FFM + 837.0. -/
def cRhoFFM (input_FFM : Fin n → ℝ) : Fin n → ℝ := fun i => 4.3 * input_FFM i + 837.0

/-- Local C of Child::cP: C = 10.4 * cRhoFFM(FFM) / rhoFM. -/
def cC (input_FFM : Fin n → ℝ) : Fin n → ℝ := fun i => 10.4 * cRhoFFM input_FFM i / rhoFM

/-- Child::cP: the partition fraction C/(C + FM). -/
def cP (input_FFM input_FM : Fin n → ℝ) : Fin n → ℝ :=
  fun i => cC input_FFM i / (cC input_FFM i + input_FM i)

/-- Child::Delta: deltamin + (deltamax - deltamin)*(1/(1 + (t/P)^h)). -/
def Delta (c : Child n) (t : Fin n → ℝ) : Fin n → ℝ :=
  fun i => deltamin + (c.deltamax i - deltamin) * (1.0 / (1.0 + (t i / P) ^ h))

/-- Sex-and-category blending common to every row of the two reference
tables: ifelse indicators for the four bmiCat classes times the sex-blended
value male*(1-sex) + female*sex of that class. -/
def catblend (c : Child n) (i : Fin n) (mu fu mn fn mo fo mb fb : ℝ) : ℝ :=
  (if c.bmiCat i = 1 then (1 : ℝ) else 0) * (mu * (1 - c.sex i) + fu * c.sex i)
    + (if c.bmiCat i = 2 then (1 : ℝ) else 0) * (mn * (1 - c.sex i) + fn * c.sex i)
    + (if c.bmiCat i = 3 then (1 : ℝ) else 0) * (mo * (1 - c.sex i) + fo * c.sex i)
    + (if c.bmiCat i = 4 then (1 : ℝ) else 0) * (mb * (1 - c.sex i) + fb * c.sex i)

/-- The 17-row reference fat-free-mass table ffm_ref of Child::FFMReference,
rows 0..16 for ages 2..18; arguments of catblend are the male and female
values for the underweight, normal, overweight and obese categories in the
order they appear in the source line for that row. -/
def ffm_ref (c : Child n) (r : ℕ) (i : Fin n) : ℝ :=
  match r with
  | 0 => c.catblend i 10.134 9.477 10.134 9.477 10.134 9.477 10.134 9.477
  | 1 => c.catblend i 12.099 11.494 12.099 11.494 12.099 11.494 12.099 11.494
  | 2 => c.catblend i 14.0 13.2 14.0 13.2 14.0 13.2 14.0 13.2
  | 3 => c.catblend i 13.54 12.45 14.85 13.78 16.21 15.71 18.37 18.81
  | 4 => c.catblend i 15.68 12.69 16.09 14.95 17.97 17.54 21.24 20.16
  | 5 => c.catblend i 18.85 14.42 17.84 17.13 20.14 20.15 24.47 23.31
  | 6 => c.catblend i 19.08 15.98 19.98 18.51 23.46 22.86 28.09 26.66
  | 7 => c.catblend i 20.23 19.52 22.49 20.97 25.96 25.51 30.82 30.43
  | 8 => c.catblend i 20.37 20.12 24.89 24.04 29.20 28.86 34.86 32.19
  | 9 => c.catblend i 21.89 25.15 26.92 27.03 32.76 34.25 37.89 38.15
  | 10 => c.catblend i 25.60 26.63 29.91 30.50 37.16 36.51 43.62 42.63
  | 11 => c.catblend i 30.52 26.47 34.82 34.59 43.11 40.20 47.03 45.31
  | 12 => c.catblend i 31.05 29.63 39.96 36.49 45.87 41.33 52.54 46.58
  | 13 => c.catblend i 36.28 37.05 43.25 38.77 49.94 42.44 55.78 47.64
  | 14 => c.catblend i 41.04 34.60 45.41 38.45 53.66 44.30 59.45 49.83
  | 15 => c.catblend i 44.75 36.61 47.55 39.81 55.59 44.43 61.07 48.59
  | 16 => c.catblend i 41.59 36.38 48.67 41.01 56.70 46.73 62.52 49.89
  | _ => 0

/-- The 17-row reference fat-mass table fm_ref of Child::FMReference. -/
def fm_ref (c : Child n) (r : ℕ) (i : Fin n) : ℝ :=
  match r with
  | 0 => c.catblend i 2.456 2.433 2.456 2.433 2.456 2.433 2.456 2.433
  | 1 => c.catblend i 2.576 2.606 2.576 2.606 2.576 2.606 2.576 2.606
  | 2 => c.catblend i 2.7 2.8 2.7 2.8 2.7 2.8 2.7 2.8
  | 3 => c.catblend i 2.05 2.33 3.10 3.72 4.13 5.19 5.60 7.58
  | 4 => c.catblend i 2.13 2.33 3.23 3.80 4.43 5.67 6.91 8.27
  | 5 => c.catblend i 2.36 2.38 3.49 4.20 5.08 6.50 8.05 9.60
  | 6 => c.catblend i 2.49 2.61 3.85 4.41 5.75 7.35 9.80 11.61
  | 7 => c.catblend i 2.49 3.36 4.25 5.00 6.41 8.39 10.41 14.26
  | 8 => c.catblend i 2.58 3.28 4.50 5.69 7.64 9.61 13.15 15.76
  | 9 => c.catblend i 2.90 4.16 4.89 6.44 8.92 12.13 14.56 19.70
  | 10 => c.catblend i 2.80 4.45 5.52 7.57 10.43 13.45 18.72 21.80
  | 11 => c.catblend i 3.65 3.63 6.86 9.41 12.58 15.76 21.70 25.10
  | 12 => c.catblend i 3.09 5.11 7.72 10.38 14.07 16.88 23.93 29.30
  | 13 => c.catblend i 4.33 5.79 8.71 11.07 16.44 17.06 26.63 28.89
  | 14 => c.catblend i 4.86 5.32 9.22 10.74 17.43 18.07 28.70 30.17
  | 15 => c.catblend i 5.29 5.68 10.04 10.78 18.74 17.86 29.78 30.29
  | 16 => c.catblend i 4.65 6.74 10.05 11.19 18.89 19.14 34.51 29.10
  | _ => 0

/-- Child::FFMReference: for t(i) >= 18 the age-18 row 16; otherwise the
interpolation ffm_ref(jmin) + (t - floor t)*(ffm_ref(jmax) - ffm_ref(jmin))
with jmin = max(floor(t), 2) - 2 and jmax = min(jmin + 1, 17), exactly as in
the loop of the source. -/
def FFMReference (c : Child n) (t : Fin n → ℝ) : Fin n → ℝ := fun i =>
  if 18.0 ≤ t i then
    c.ffm_ref 16 i
  else
    c.ffm_ref (max ⌊t i⌋ 2 - 2).toNat i
      + (t i - (⌊t i⌋ : ℝ)) *
        (c.ffm_ref (min (max ⌊t i⌋ 2 - 2 + 1) 17).toNat i - c.ffm_ref (max ⌊t i⌋ 2 - 2).toNat i)

/-- Child::FMReference: identical lookup over the fm_ref table. -/
def FMReference (c : Child n) (t : Fin n → ℝ) : Fin n → ℝ := fun i =>
  if 18.0 ≤ t i then
    c.fm_ref 16 i
  else
    c.fm_ref (max ⌊t i⌋ 2 - 2).toNat i
      + (t i - (⌊t i⌋ : ℝ)) *
        (c.fm_ref (min (max ⌊t i⌋ 2 - 2 + 1) 17).toNat i - c.fm_ref (max ⌊t i⌋ 2 - 2).toNat i)

/-- Child::Intake translated with the Rcpp row access made explicit: the
generalized-logistic branch is A + (K - A)/(C + Q*exp(-B*t))^(1/nu); the
tabulated branch computes timeval = floor(365*(t(0) - age(0))/dt) and
performs the checked row access of the energy matrix. -/
def IntakeE [NeZero n] (c : Child n) (t : Fin n → ℝ) : Except RcppError (Fin n → ℝ) :=
  if c.generalized_logistic then
    .ok (fun i =>
      c.A_logistic + (c.K_logistic - c.A_logistic)
        / (c.C_logistic + c.Q_logistic * Real.exp (-(c.B_logistic * t i))) ^ (1 / c.nu_logistic))
  else
    rowAccessChecked c.EIntakeM ⌊365.0 * (t 0 - c.age 0) / c.dt⌋

/-- Totalisation of Child::Intake used inside the arithmetic of the model:
the value returned on success, and the junk value 0 in the tabulated
out-of-bounds case, where the source propagates the Rcpp error of IntakeE
instead of returning. -/
def Intake [NeZero n] (c : Child n) (t : Fin n → ℝ) : Fin n → ℝ := fun i =>
  match c.IntakeE t with
  | .ok v => v i
  | .error _ => 0

/-- Child::IntakeReference with the source locals EB, FFMref, FMref, delta,
growth, p, rhoFFM inlined as calls of the functions they are computed by. -/
def IntakeReference (c : Child n) (t : Fin n → ℝ) : Fin n → ℝ := fun i =>
  c.EB_impact t i + c.K i
    + (22.4 + c.Delta t i) * c.FFMReference t i
    + (4.5 + c.Delta t i) * c.FMReference t i
    + 230.0 / cRhoFFM (c.FFMReference t) i *
        (cP (c.FFMReference t) (c.FMReference t) i * c.EB_impact t i + c.Growth_dynamic t i)
    + 180.0 / rhoFM *
        ((1 - cP (c.FFMReference t) (c.FMReference t) i) * c.EB_impact t i - c.Growth_dynamic t i)

/-- Child::Expenditure with the source locals inlined: the numerator Expend
divided by the closing denominator 1 + 230/rhoFFM*p + 180/rhoFM*(1-p). -/
def Expenditure [NeZero n] (c : Child n) (t FFMv FMv : Fin n → ℝ) : Fin n → ℝ := fun i =>
  (c.K i + (22.4 + c.Delta t i) * FFMv i + (4.5 + c.Delta t i) * FMv i
      + 0.24 * (c.Intake t i - c.IntakeReference t i)
      + (230.0 / cRhoFFM FFMv i * cP FFMv FMv i + 180.0 / rhoFM * (1.0 - cP FFMv FMv i)) * c.Intake t i
      + c.Growth_dynamic t i * (230.0 / cRhoFFM FFMv i - 180.0 / rhoFM))
    / (1.0 + 230.0 / cRhoFFM FFMv i * cP FFMv FMv i + 180.0 / rhoFM * (1.0 - cP FFMv FMv i))

/-- Child::dMass: the pair (dFFM, dFM) of the 2 x nind matrix Mass, row 0 and
row 1. -/
def dMass [NeZero n] (c : Child n) (t FFMv FMv : Fin n → ℝ) : Fin n → ℝ × ℝ := fun i =>
  ((1.0 * cP FFMv FMv i * (c.Intake t i - c.Expenditure t FFMv FMv i) + c.Growth_dynamic t i)
      / cRhoFFM FFMv i,
   ((1.0 - cP FFMv FMv i) * (c.Intake t i - c.Expenditure t FFMv FMv i) - c.Growth_dynamic t i)
      / rhoFM)

/-- One column of the trajectory matrices of Child::rk4: the entries of
TIME, AGE, ModelFFM, ModelFM and ModelBW at one recorded step. -/
structure RKCol (n : ℕ) where
  TIME : ℝ
  AGE : Fin n → ℝ
  FFM : Fin n → ℝ
  FM : Fin n → ℝ
  BW : Fin n → ℝ

/-- First RK4 stage of the loop body: k1 = dMass(AGE, ModelFFM, ModelFM) at
the previous column. -/
def rk4k1 [NeZero n] (c : Child n) (s : RKCol n) : Fin n → ℝ × ℝ :=
  c.dMass s.AGE s.FFM s.FM

/-- State at which the source evaluates the second RK4 stage (line 305): the
time argument advances by 0.5*dt/365 years while the mass perturbation is
0.5*k1 with no dt factor. -/
def rk4stage2state [NeZero n] (c : Child n) (s : RKCol n) :
    (Fin n → ℝ) × (Fin n → ℝ) × (Fin n → ℝ) :=
  (fun i => s.AGE i + 0.5 * c.dt / 365.0,
   fun i => s.FFM i + 0.5 * (c.rk4k1 s i).1,
   fun i => s.FM i + 0.5 * (c.rk4k1 s i).2)

/-- Second-stage state as the specification words it: the half-step
perturbation of the intermediate state is scaled by dt, so the masses are
FFM + 0.5*dt*k1.FFM and FM + 0.5*dt*k1.FM. -/
def rk4stage2stateSpec [NeZero n] (c : Child n) (s : RKCol n) :
    (Fin n → ℝ) × (Fin n → ℝ) × (Fin n → ℝ) :=
  (fun i => s.AGE i + 0.5 * c.dt / 365.0,
   fun i => s.FFM i + 0.5 * c.dt * (c.rk4k1 s i).1,
   fun i => s.FM i + 0.5 * c.dt * (c.rk4k1 s i).2)

/-- Second RK4 stage: k2 = dMass evaluated at the stage-2 state of the
source. -/
def rk4k2 [NeZero n] (c : Child n) (s : RKCol n) : Fin n → ℝ × ℝ :=
  c.dMass (c.rk4stage2state s).1 (c.rk4stage2state s).2.1 (c.rk4stage2state s).2.2

/-- Third RK4 stage: k3 = dMass(AGE + 0.5*dt/365, FFM + 0.5*k2.FFM, FM + 0.5*k2.FM). -/
def rk4k3 [NeZero n] (c : Child n) (s : RKCol n) : Fin n → ℝ × ℝ :=
  c.dMass (fun i => s.AGE i + 0.5 * c.dt / 365.0)
    (fun i => s.FFM i + 0.5 * (c.rk4k2 s i).1)
    (fun i => s.FM i + 0.5 * (c.rk4k2 s i).2)

/-- Fourth RK4 stage: k4 = dMass(AGE + dt/365, FFM + k3.FFM, FM + k3.FM). -/
def rk4k4 [NeZero n] (c : Child n) (s : RKCol n) : Fin n → ℝ × ℝ :=
  c.dMass (fun i => s.AGE i + c.dt / 365.0)
    (fun i => s.FFM i + (c.rk4k3 s i).1)
    (fun i => s.FM i + (c.rk4k3 s i).2)

/-- Body of the loop of Child::rk4 producing column i from column i-1:
ModelFFM and ModelFM advance by dt*(k1 + 2*k2 + 2*k3 + k4)/6, ModelBW is the
sum of the two new columns, TIME advances by dt and AGE by dt/365. -/
def rk4step [NeZero n] (c : Child n) (s : RKCol n) : RKCol n :=
  let FFMnew : Fin n → ℝ := fun i =>
    s.FFM i + c.dt * ((c.rk4k1 s i).1 + 2.0 * (c.rk4k2 s i).1
      + 2.0 * (c.rk4k3 s i).1 + (c.rk4k4 s i).1) / 6.0
  let FMnew : Fin n → ℝ := fun i =>
    s.FM i + c.dt * ((c.rk4k1 s i).2 + 2.0 * (c.rk4k2 s i).2
      + 2.0 * (c.rk4k3 s i).2 + (c.rk4k4 s i).2) / 6.0
  { TIME := s.TIME + c.dt
    AGE := fun i => s.AGE i + c.dt / 365.0
    FFM := FFMnew
    FM := FMnew
    BW := fun i => FFMnew i + FMnew i }

/-- Column 0 of the trajectory matrices: the initial states created before
the loop of Child::rk4. -/
def initCol (c : Child n) : RKCol n :=
  { TIME := 0.0
    AGE := c.age
    FFM := c.FFM
    FM := c.FM
    BW := fun i => c.FFM i + c.FM i }

/-- Column k of the trajectory matrices of Child::rk4: the loop body applied
k times to the initial column. -/
def rk4cols [NeZero n] (c : Child n) (k : ℕ) : RKCol n :=
  c.rk4step^[k] c.initCol

/-- The list returned by Child::rk4, with each matrix read column by
column; nsims records the number of integration steps, so each matrix has
nsims + 1 meaningful columns 0..nsims. -/
structure Trajectory (n : ℕ) where
  nsims : ℕ
  Time : ℕ → ℝ
  Age : ℕ → Fin n → ℝ
  Fat_Free_Mass : ℕ → Fin n → ℝ
  Fat_Mass : ℕ → Fin n → ℝ
  Body_Weight : ℕ → Fin n → ℝ
  Correct_Values : Bool
  Model_Type : String

/-- Child::rk4: nsims = floor(days/dt) integration steps; correctVals is
initialised to true before the loop and never written again. -/
def rk4 [NeZero n] (c : Child n) (days : ℝ) : Trajectory n :=
  { nsims := (⌊days / c.dt⌋).toNat
    Time := fun k => (c.rk4cols k).TIME
    Age := fun k => (c.rk4cols k).AGE
    Fat_Free_Mass := fun k => (c.rk4cols k).FFM
    Fat_Mass := fun k => (c.rk4cols k).FM
    Body_Weight := fun k => (c.rk4cols k).BW
    Correct_Values := true
    Model_Type := "Children" }

end Child

/-- Concrete one-individual cohort in the generalized-logistic variant: a
male (sex 0) of the normal bmi category, age 5, FFM 15 kg, FM 3 kg, step
dt = 2 days, constant logistic intake 1600 kcal. -/
def child1 : Child 1 :=
  { age := fun _ => 5
    sex := fun _ => 0
    bmiCat := fun _ => 2
    FFM := fun _ => 15
    FM := fun _ => 3
    dt := 2
    check := true
    generalized_logistic := true
    T := 1
    EIntakeM := fun _ _ => 1600
    K_logistic := 1600
    Q_logistic := 0
    A_logistic := 1600
    B_logistic := 1
    nu_logistic := 1
    C_logistic := 1 }

/-- Concrete one-individual cohort in the tabulated variant: a one-row
intake matrix, start age 0 and dt = 1, so the row index at age 2 lands far
outside the matrix. -/
def childTab : Child 1 :=
  { age := fun _ => 0
    sex := fun _ => 0
    bmiCat := fun _ => 2
    FFM := fun _ => 15
    FM := fun _ => 3
    dt := 1
    check := true
    generalized_logistic := false
    T := 1
    EIntakeM := fun _ _ => 1600
    K_logistic := 0
    Q_logistic := 0
    A_logistic := 0
    B_logistic := 0
    nu_logistic := 0
    C_logistic := 0 }

/-- Unfolding of one application of the loop body in the column iteration. -/
theorem Child.rk4cols_succ {n : ℕ} [NeZero n] (c : Child n) (k : ℕ) :
    c.rk4cols (k + 1) = c.rk4step (c.rk4cols k) :=
  Function.iterate_succ_apply' c.rk4step k c.initCol

/-- The TIME entry of column k is k*dt. -/
theorem Child.rk4cols_TIME {n : ℕ} [NeZero n] (c : Child n) (k : ℕ) :
    (c.rk4cols k).TIME = k * c.dt := by
  induction k with
  | zero => norm_num [Child.rk4cols, Child.initCol]
  | succ m ih =>
      rw [Child.rk4cols_succ]
      show (c.rk4cols m).TIME + c.dt = _
      rw [ih]
      push_cast
      ring

/-- The AGE entry of column k is the initial age plus k*dt/365. -/
theorem Child.rk4cols_AGE {n : ℕ} [NeZero n] (c : Child n) (k : ℕ) (i : Fin n) :
    (c.rk4cols k).AGE i = c.age i + k * c.dt / 365.0 := by
  induction k with
  | zero => simp [Child.rk4cols, Child.initCol]
  | succ m ih =>
      rw [Child.rk4cols_succ]
      show (c.rk4cols m).AGE i + c.dt / 365.0 = _
      rw [ih]
      push_cast
      ring

/-- The ModelBW entry of every column is the sum of the ModelFFM and ModelFM
entries. -/
theorem Child.rk4cols_BW {n : ℕ} [NeZero n] (c : Child n) (k : ℕ) (i : Fin n) :
    (c.rk4cols k).BW i = (c.rk4cols k).FFM i + (c.rk4cols k).FM i := by
  cases k with
  | zero => rfl
  | succ m =>
      rw [Child.rk4cols_succ]
      rfl

/-- The three-term exponential kernel is strictly positive whenever its three
amplitudes are. -/
theorem Child.general_ode_pos {n : ℕ} (t a b d ta tb td taua taub taud : Fin n → ℝ)
    (i : Fin n) (ha : 0 < a i) (hb : 0 < b i) (hd : 0 < d i) :
    0 < Child.general_ode t a b d ta tb td taua taub taud i := by
  unfold Child.general_ode
  have e1 := Real.exp_pos (-((t i - ta i) / taua i))
  have e2 := Real.exp_pos (-0.5 * ((t i - tb i) / taub i) ^ 2)
  have e3 := Real.exp_pos (-0.5 * ((t i - td i) / taud i) ^ 2)
  nlinarith [mul_pos ha e1, mul_pos hb e2, mul_pos hd e3]

/-- C9: the validity flag Correct_Values of the list returned by rk4 is the
constant true for every cohort, either intake variant, and every horizon. -/
theorem rk4_correct_values_true {n : ℕ} [NeZero n] (c : Child n) (days : ℝ) :
    (c.rk4 days).Correct_Values = true := rfl

theorem rk4_correct_values_true_witness :
    (child1.rk4 4).Correct_Values = true :=
  rk4_correct_values_true child1 4

/-- C3: for every run of rk4, every recorded step k in 0..nsims and every
individual i, the recorded body weight equals the pointwise sum of the
recorded fat-free mass and fat mass at that step. -/
theorem rk4_bodyweight_sum {n : ℕ} [NeZero n] (c : Child n) (days : ℝ) (k : ℕ)
    (hk : k ≤ (c.rk4 days).nsims) (i : Fin n) :
    (c.rk4 days).Body_Weight k i
      = (c.rk4 days).Fat_Free_Mass k i + (c.rk4 days).Fat_Mass k i :=
  Child.rk4cols_BW c k i

theorem rk4_bodyweight_sum_witness :
    (child1.rk4 4).Body_Weight 0 0
      = (child1.rk4 4).Fat_Free_Mass 0 0 + (child1.rk4 4).Fat_Mass 0 0 :=
  rk4_bodyweight_sum child1 4 0 (Nat.zero_le _) 0

/-- C6: with dt > 0 the recorded elapsed-time sequence of rk4 is exactly
0, dt, 2*dt, ..., nsims*dt, strictly increasing across recorded steps, and
the recorded age at step k equals the initial age plus k*dt/365. -/
theorem rk4_time_age_sequence {n : ℕ} [NeZero n] (c : Child n) (days : ℝ)
    (hdt : 0 < c.dt) :
    (∀ k, k ≤ (c.rk4 days).nsims →
        (c.rk4 days).Time k = k * c.dt
          ∧ ∀ i, (c.rk4 days).Age k i = c.age i + k * c.dt / 365.0)
      ∧ (∀ k l, k < l → l ≤ (c.rk4 days).nsims →
          (c.rk4 days).Time k < (c.rk4 days).Time l) := by
  constructor
  · intro k _
    exact ⟨Child.rk4cols_TIME c k, fun i => Child.rk4cols_AGE c k i⟩
  · intro k l hkl _
    have h1 : (c.rk4 days).Time k = k * c.dt := Child.rk4cols_TIME c k
    have h2 : (c.rk4 days).Time l = l * c.dt := Child.rk4cols_TIME c l
    rw [h1, h2]
    have hc : (k : ℝ) < l := by exact_mod_cast hkl
    exact mul_lt_mul_of_pos_right hc hdt

theorem rk4_time_age_sequence_witness :
    (child1.rk4 4).Time 1 = ((1 : ℕ) : ℝ) * child1.dt
      ∧ ∀ i, (child1.rk4 4).Age 1 i = child1.age i + ((1 : ℕ) : ℝ) * child1.dt / 365.0 :=
  (rk4_time_age_sequence child1 4 (by norm_num [child1])).1 1
    (by norm_num [Child.rk4, child1])

/-- C7: for 0 <= days < dt, rk4 performs nsims = floor(days/dt) = 0
integration steps and the single recorded step 0 is the initial state. -/
theorem rk4_zero_steps_initial_state {n : ℕ} [NeZero n] (c : Child n) (days : ℝ)
    (h0 : 0 ≤ days) (h1 : days < c.dt) :
    (c.rk4 days).nsims = 0 ∧ (c.rk4 days).Time 0 = 0
      ∧ ∀ i, (c.rk4 days).Age 0 i = c.age i
          ∧ (c.rk4 days).Fat_Free_Mass 0 i = c.FFM i
          ∧ (c.rk4 days).Fat_Mass 0 i = c.FM i
          ∧ (c.rk4 days).Body_Weight 0 i = c.FFM i + c.FM i := by
  have hdt : 0 < c.dt := lt_of_le_of_lt h0 h1
  have hfl : ⌊days / c.dt⌋ = 0 := by
    rw [Int.floor_eq_zero_iff]
    exact Set.mem_Ico.mpr ⟨div_nonneg h0 hdt.le, (div_lt_one hdt).mpr h1⟩
  refine ⟨?_, ?_, fun i => ⟨rfl, rfl, rfl, rfl⟩⟩
  · simp [Child.rk4, hfl]
  · show (0.0 : ℝ) = 0
    norm_num

theorem rk4_zero_steps_initial_state_witness :
    (child1.rk4 1).nsims = 0 ∧ (child1.rk4 1).Time 0 = 0
      ∧ ∀ i, (child1.rk4 1).Age 0 i = child1.age i
          ∧ (child1.rk4 1).Fat_Free_Mass 0 i = child1.FFM i
          ∧ (child1.rk4 1).Fat_Mass 0 i = child1.FM i
          ∧ (child1.rk4 1).Body_Weight 0 i = child1.FFM i + child1.FM i :=
  rk4_zero_steps_initial_state child1 1 (by norm_num) (by norm_num [child1])

/-- C10: for elementwise-nonnegative FFM and FM the local C of cP is
strictly positive, the denominator C + FM is strictly positive, and the
returned partition fraction lies in (0, 1]. -/
theorem cP_partition_fraction_bounds {n : ℕ} (FFMv FMv : Fin n → ℝ) (i : Fin n)
    (hf : 0 ≤ FFMv i) (hm : 0 ≤ FMv i) :
    0 < Child.cC FFMv i ∧ 0 < Child.cC FFMv i + FMv i
      ∧ 0 < Child.cP FFMv FMv i ∧ Child.cP FFMv FMv i ≤ 1 := by
  have hρ : 0 < Child.cRhoFFM FFMv i := by
    unfold Child.cRhoFFM
    linarith
  have hC : 0 < Child.cC FFMv i := by
    unfold Child.cC
    apply div_pos (by linarith) (by norm_num [Child.rhoFM])
  have hden : 0 < Child.cC FFMv i + FMv i := by linarith
  refine ⟨hC, hden, ?_, ?_⟩
  · unfold Child.cP
    exact div_pos hC hden
  · unfold Child.cP
    rw [div_le_one hden]
    linarith

theorem cP_partition_fraction_bounds_witness :
    0 < Child.cC (fun _ : Fin 1 => (15 : ℝ)) 0
      ∧ 0 < Child.cC (fun _ : Fin 1 => (15 : ℝ)) 0 + (fun _ : Fin 1 => (3 : ℝ)) 0
      ∧ 0 < Child.cP (fun _ : Fin 1 => (15 : ℝ)) (fun _ : Fin 1 => (3 : ℝ)) 0
      ∧ Child.cP (fun _ : Fin 1 => (15 : ℝ)) (fun _ : Fin 1 => (3 : ℝ)) 0 ≤ 1 :=
  cP_partition_fraction_bounds (fun _ : Fin 1 => (15 : ℝ)) (fun _ : Fin 1 => (3 : ℝ)) 0
    (by norm_num) (by norm_num)

/-- C8: in the generalized-logistic variant with Q = 0 (and C > 0, nu
nonzero) the intake is the constant A + (K - A)/C^(1/nu) for every age
vector and every individual. -/
theorem intake_logistic_constant {n : ℕ} [NeZero n] (c : Child n)
    (hgl : c.generalized_logistic = true) (hQ : c.Q_logistic = 0)
    (hC : 0 < c.C_logistic) (hnu : c.nu_logistic ≠ 0) (t : Fin n → ℝ) (i : Fin n) :
    c.Intake t i
      = c.A_logistic + (c.K_logistic - c.A_logistic) / c.C_logistic ^ (1 / c.nu_logistic) := by
  simp [Child.Intake, Child.IntakeE, hgl, hQ]

theorem intake_logistic_constant_witness :
    child1.Intake (fun _ => 3) 0
      = child1.A_logistic
        + (child1.K_logistic - child1.A_logistic) / child1.C_logistic ^ (1 / child1.nu_logistic) :=
  intake_logistic_constant child1 rfl rfl (by norm_num [child1]) (by norm_num [child1])
    (fun _ => 3) 0

/-- C5: in the tabulated variant the row index floor(365*(t(0)-age(0))/dt)
is checked against the bounds of the intake matrix before the matrix is
accessed: an IndexOutOfRange error is reported whenever it falls outside the
rows, and the tabulated row is returned otherwise. -/
theorem intake_tabulated_bounds_checked {n : ℕ} [NeZero n] (c : Child n) (t : Fin n → ℝ)
    (hv : c.generalized_logistic = false) :
    (¬ (0 ≤ ⌊365.0 * (t 0 - c.age 0) / c.dt⌋
          ∧ ⌊365.0 * (t 0 - c.age 0) / c.dt⌋ < (c.T : ℤ)) →
        c.IntakeE t = .error .IndexOutOfRange)
      ∧ ((0 ≤ ⌊365.0 * (t 0 - c.age 0) / c.dt⌋
          ∧ ⌊365.0 * (t 0 - c.age 0) / c.dt⌋ < (c.T : ℤ)) →
        ∃ v, c.IntakeE t = .ok v) := by
  constructor
  · intro hout
    simp [Child.IntakeE, hv, rowAccessChecked, hout]
  · intro hin
    unfold Child.IntakeE rowAccessChecked
    rw [hv]
    simp only [Bool.false_eq_true, if_false]
    rw [dif_pos hin]
    exact ⟨_, rfl⟩

/-- C2: the reference-curve lookup of FFMReference (and identically
FMReference over its own table) returns the row-16 value whenever
t(i) >= 18, and otherwise row(j) + (t(i) - floor(t(i)))*(row(jHigh) - row(j))
with j = max(floor(t(i)), 2) - 2 and jHigh = min(j+1, 16); in particular at
t(i) = 2 it returns the row-0 value exactly. -/
theorem reference_lookup_formula {n : ℕ} (c : Child n) (t : Fin n → ℝ) (i : Fin n) :
    (18.0 ≤ t i → c.FFMReference t i = c.ffm_ref 16 i ∧ c.FMReference t i = c.fm_ref 16 i)
    ∧ (t i < 18.0 →
        c.FFMReference t i
          = c.ffm_ref (max ⌊t i⌋ 2 - 2).toNat i
            + (t i - (⌊t i⌋ : ℝ)) *
              (c.ffm_ref (min ((max ⌊t i⌋ 2 - 2).toNat + 1) 16) i
                - c.ffm_ref (max ⌊t i⌋ 2 - 2).toNat i)
          ∧ c.FMReference t i
            = c.fm_ref (max ⌊t i⌋ 2 - 2).toNat i
              + (t i - (⌊t i⌋ : ℝ)) *
                (c.fm_ref (min ((max ⌊t i⌋ 2 - 2).toNat + 1) 16) i
                  - c.fm_ref (max ⌊t i⌋ 2 - 2).toNat i))
    ∧ (t i = 2.0 → c.FFMReference t i = c.ffm_ref 0 i ∧ c.FMReference t i = c.fm_ref 0 i) := by
  refine ⟨fun h18 => ?_, fun hlt => ?_, fun h2 => ?_⟩
  · constructor
    · simp [Child.FFMReference, h18]
    · simp [Child.FMReference, h18]
  · have hfloor : ⌊t i⌋ < 18 := by
      rw [Int.floor_lt]
      push_cast
      norm_num at hlt ⊢
      exact hlt
    have hidx : (min (max ⌊t i⌋ 2 - 2 + 1) 17).toNat
        = min ((max ⌊t i⌋ 2 - 2).toNat + 1) 16 := by omega
    constructor
    · simp only [Child.FFMReference]
      rw [if_neg (not_le.mpr hlt), hidx]
    · simp only [Child.FMReference]
      rw [if_neg (not_le.mpr hlt), hidx]
  · have hnot : ¬ (18.0 ≤ t i) := by rw [h2]; norm_num
    have hfl2 : ⌊t i⌋ = 2 := by rw [h2]; norm_num
    have hj0 : ((max (2 : ℤ) 2 - 2).toNat) = 0 := by decide
    have hj1 : ((min (max (2 : ℤ) 2 - 2 + 1) 17).toNat) = 1 := by decide
    constructor
    · simp only [Child.FFMReference]
      rw [if_neg hnot, hfl2, hj0, hj1, h2]
      norm_num
    · simp only [Child.FMReference]
      rw [if_neg hnot, hfl2, hj0, hj1, h2]
      norm_num

theorem reference_lookup_formula_witness :
    child1.FFMReference (fun _ => 2.0) 0 = child1.ffm_ref 0 0 :=
  ((reference_lookup_formula child1 (fun _ => 2.0) 0).2.2 rfl).1

/-- C4: the value returned by Expenditure satisfies the implicit
energy-balance closure identity
E = K + (22.4+delta)*FFM + (4.5+delta)*FM + 0.24*(Intake - IntakeReference)
  + (230/rhoFFM*p + 180/rhoFM*(1-p))*(Intake - E)
  + growth*(230/rhoFFM - 180/rhoFM)
whenever the normalizing denominator is nonzero: the division is an exact
algebraic rearrangement of the implicit expenditure equation. -/
theorem expenditure_closure_identity {n : ℕ} [NeZero n] (c : Child n)
    (t FFMv FMv : Fin n → ℝ) (i : Fin n)
    (hden : 1.0 + 230.0 / Child.cRhoFFM FFMv i * Child.cP FFMv FMv i
        + 180.0 / Child.rhoFM * (1.0 - Child.cP FFMv FMv i) ≠ 0) :
    c.Expenditure t FFMv FMv i
      = c.K i + (22.4 + c.Delta t i) * FFMv i + (4.5 + c.Delta t i) * FMv i
        + 0.24 * (c.Intake t i - c.IntakeReference t i)
        + (230.0 / Child.cRhoFFM FFMv i * Child.cP FFMv FMv i
            + 180.0 / Child.rhoFM * (1.0 - Child.cP FFMv FMv i))
          * (c.Intake t i - c.Expenditure t FFMv FMv i)
        + c.Growth_dynamic t i * (230.0 / Child.cRhoFFM FFMv i - 180.0 / Child.rhoFM) := by
  have hcancel : c.Expenditure t FFMv FMv i
      * (1.0 + 230.0 / Child.cRhoFFM FFMv i * Child.cP FFMv FMv i
          + 180.0 / Child.rhoFM * (1.0 - Child.cP FFMv FMv i))
      = c.K i + (22.4 + c.Delta t i) * FFMv i + (4.5 + c.Delta t i) * FMv i
        + 0.24 * (c.Intake t i - c.IntakeReference t i)
        + (230.0 / Child.cRhoFFM FFMv i * Child.cP FFMv FMv i
            + 180.0 / Child.rhoFM * (1.0 - Child.cP FFMv FMv i)) * c.Intake t i
        + c.Growth_dynamic t i * (230.0 / Child.cRhoFFM FFMv i - 180.0 / Child.rhoFM) := by
    simp only [Child.Expenditure]
    exact div_mul_cancel₀ _ hden
  linear_combination hcancel

theorem expenditure_closure_identity_witness :
    child1.Expenditure (fun _ => 5) (fun _ => 15) (fun _ => 3) 0
      = child1.K 0 + (22.4 + child1.Delta (fun _ => 5) 0) * 15
        + (4.5 + child1.Delta (fun _ => 5) 0) * 3
        + 0.24 * (child1.Intake (fun _ => 5) 0 - child1.IntakeReference (fun _ => 5) 0)
        + (230.0 / Child.cRhoFFM (fun _ : Fin 1 => (15 : ℝ)) 0
              * Child.cP (fun _ : Fin 1 => (15 : ℝ)) (fun _ : Fin 1 => (3 : ℝ)) 0
            + 180.0 / Child.rhoFM
              * (1.0 - Child.cP (fun _ : Fin 1 => (15 : ℝ)) (fun _ : Fin 1 => (3 : ℝ)) 0))
          * (child1.Intake (fun _ => 5) 0
              - child1.Expenditure (fun _ => 5) (fun _ => 15) (fun _ => 3) 0)
        + child1.Growth_dynamic (fun _ => 5) 0
          * (230.0 / Child.cRhoFFM (fun _ : Fin 1 => (15 : ℝ)) 0 - 180.0 / Child.rhoFM) :=
  expenditure_closure_identity child1 (fun _ => 5) (fun _ => 15) (fun _ => 3) 0
    (by norm_num [Child.cRhoFFM, Child.cP, Child.cC, Child.rhoFM])

/-- C1: on the failing input child1 (dt = 2), the state at which the source
evaluates the second RK4 stage differs from the dt-scaled state the claim
describes: the source perturbs the intermediate masses by 0.5*k1 while the
claim demands 0.5*dt*k1, and the k1 slope at the initial state is nonzero
because the growth term is strictly positive. -/
theorem rk4_stage2_state_not_dt_scaled :
    child1.rk4stage2state child1.initCol ≠ child1.rk4stage2stateSpec child1.initCol := by
  intro hEq
  have hFFMc : child1.initCol.FFM 0 + 0.5 * (child1.rk4k1 child1.initCol 0).1
      = child1.initCol.FFM 0 + 0.5 * child1.dt * (child1.rk4k1 child1.initCol 0).1 :=
    congrFun (congrArg (fun q => q.2.1) hEq) 0
  have hFMc : child1.initCol.FM 0 + 0.5 * (child1.rk4k1 child1.initCol 0).2
      = child1.initCol.FM 0 + 0.5 * child1.dt * (child1.rk4k1 child1.initCol 0).2 :=
    congrFun (congrArg (fun q => q.2.2) hEq) 0
  have hdt : child1.dt = 2 := rfl
  rw [hdt] at hFFMc hFMc
  have hk1f : (child1.rk4k1 child1.initCol 0).1 = 0 := by linarith
  have hk1m : (child1.rk4k1 child1.initCol 0).2 = 0 := by linarith
  have hdiv1 : (1.0 * Child.cP child1.initCol.FFM child1.initCol.FM 0
        * (child1.Intake child1.initCol.AGE 0
            - child1.Expenditure child1.initCol.AGE child1.initCol.FFM child1.initCol.FM 0)
        + child1.Growth_dynamic child1.initCol.AGE 0)
      / Child.cRhoFFM child1.initCol.FFM 0 = 0 := hk1f
  have hdiv2 : ((1.0 - Child.cP child1.initCol.FFM child1.initCol.FM 0)
        * (child1.Intake child1.initCol.AGE 0
            - child1.Expenditure child1.initCol.AGE child1.initCol.FFM child1.initCol.FM 0)
        - child1.Growth_dynamic child1.initCol.AGE 0)
      / Child.rhoFM = 0 := hk1m
  have hρ : Child.cRhoFFM child1.initCol.FFM 0 = 901.5 := by
    norm_num [Child.cRhoFFM, Child.initCol, child1]
  rw [hρ] at hdiv1
  have hnum1 : 1.0 * Child.cP child1.initCol.FFM child1.initCol.FM 0
      * (child1.Intake child1.initCol.AGE 0
          - child1.Expenditure child1.initCol.AGE child1.initCol.FFM child1.initCol.FM 0)
      + child1.Growth_dynamic child1.initCol.AGE 0 = 0 := by
    rcases div_eq_zero_iff.mp hdiv1 with hz | hz
    · exact hz
    · norm_num at hz
  have hnum2 : (1.0 - Child.cP child1.initCol.FFM child1.initCol.FM 0)
      * (child1.Intake child1.initCol.AGE 0
          - child1.Expenditure child1.initCol.AGE child1.initCol.FFM child1.initCol.FM 0)
      - child1.Growth_dynamic child1.initCol.AGE 0 = 0 := by
    rcases div_eq_zero_iff.mp hdiv2 with hz | hz
    · exact hz
    · exact absurd hz (by norm_num [Child.rhoFM])
  have hX : child1.Intake child1.initCol.AGE 0
      - child1.Expenditure child1.initCol.AGE child1.initCol.FFM child1.initCol.FM 0 = 0 := by
    linear_combination hnum1 + hnum2
  have hg0 : child1.Growth_dynamic child1.initCol.AGE 0 = 0 := by
    linear_combination hnum1
      - (1.0 * Child.cP child1.initCol.FFM child1.initCol.FM 0) * hX
  have hgpos : 0 < child1.Growth_dynamic child1.initCol.AGE 0 := by
    simp only [Child.Growth_dynamic]
    refine Child.general_ode_pos _ _ _ _ _ _ _ _ _ _ 0 ?_ ?_ ?_
    · norm_num [Child.A, child1]
    · norm_num [Child.B, child1]
    · norm_num [Child.D, child1]
  linarith

theorem intake_tabulated_bounds_checked_witness :
    childTab.IntakeE (fun _ => 2) = .error .IndexOutOfRange := by
  refine (intake_tabulated_bounds_checked childTab (fun _ => 2) rfl).1 ?_
  intro hcontra
  have h730 : ⌊365.0 * ((2 : ℝ) - childTab.age 0) / childTab.dt⌋ = 730 := by
    norm_num [childTab]
  rw [h730] at hcontra
  have : (730 : ℤ) < (childTab.T : ℤ) := hcontra.2
  norm_num [childTab] at this

end
